import Mathlib

/-!
Verification development for the MongoDB replication oplog fetcher
(`src/src/mongo/db/repl/oplog_fetcher.h`, classes `mongo::repl::OplogFetcher`
and `mongo::repl::NewOplogFetcher`).

The repository ships only the header, which declares the data model
(`DocumentsInfo`, `StartingPoint`, `OplogFetcherRestartDecisionDefault`, the
member fields) and the signatures of the operations
(`validateDocuments(documents, first, lastTS, startingPoint)`,
`_onSuccessfulBatch`, `_finishCallback`, ...).  The function bodies are not
under src/, so every operation below is modelled from the specification's
description of the batch validator (spec section 4.4), the cursor driver
(section 4.3), the lifecycle controller (section 4.1) and the restart policy
(section 4.5), against the signatures and member fields declared in the
header.
-/

namespace OplogFetcherSpec

/-- A BSON `Timestamp` (`mongo/bson/timestamp.h`): a 64-bit value whose total
order is derived from the packed pair (seconds, ordinal).  The validator only
compares timestamps, so we model the packed 64-bit value as a natural number
with its numeric order.  (Structure fields use `Nat` directly, which is the
same type.) -/
abbrev Timestamp := Nat

/-- Modelled from the spec (section 3): an `OpTime` is a pair
`(timestamp, term)`; the term is a non-negative integer.  Two OpTimes are
equal iff both components match; the order is lexicographic, timestamp
first. -/
structure OpTime where
  ts : Nat
  t : Nat
deriving DecidableEq

/-- The lexicographic (timestamp, term) order on OpTimes. -/
def OpTime.le (a b : OpTime) : Prop :=
  a.ts < b.ts ∨ (a.ts = b.ts ∧ a.t ≤ b.t)

instance (a b : OpTime) : Decidable (OpTime.le a b) := by
  unfold OpTime.le
  infer_instance

/-- Modelled from the spec (section 4.4 rule 1): an empty batch's
`lastDocument` is `lastKnownTs` "packaged as `OpTime`"; the packaging fills
in the default term. -/
def OpTime.fromTimestamp (ts : Timestamp) : OpTime :=
  { ts := ts, t := 0 }

/-- Modelled from the spec (section 3): the validator inspects exactly the
entry's OpTime fields `ts` and `t`, and the serialized size of the document
(`objsize`) for the byte statistics.  The rest of the oplog entry is opaque
to the fetcher and is not modelled. -/
structure Document where
  ts : Nat
  t : Nat
  objsize : Nat
deriving DecidableEq

/-- The OpTime carried by one oplog document. -/
def Document.opTime (d : Document) : OpTime :=
  { ts := d.ts, t := d.t }

/-- `NewOplogFetcher::StartingPoint` (oplog_fetcher.h:299). -/
inductive StartingPoint where
  | kSkipFirstDoc
  | kEnqueueFirstDoc
deriving DecidableEq

/-- `NewOplogFetcher::DocumentsInfo` (oplog_fetcher.h:304-310): per-batch
statistics returned by `validateDocuments`. -/
structure DocumentsInfo where
  networkDocumentCount : Nat
  networkDocumentBytes : Nat
  toApplyDocumentCount : Nat
  toApplyDocumentBytes : Nat
  lastDocument : OpTime
deriving DecidableEq

/-- The error codes of the fetcher's error taxonomy (spec section 7) that the
modelled operations can produce. -/
inductive ErrorCode where
  | OplogStartMissing
  | OplogOutOfOrder
  | InvalidSyncSource
  | NetworkError
deriving DecidableEq

deriving instance DecidableEq for Except

/-- Total serialized size of a batch. -/
def sumBytes (docs : List Document) : Nat :=
  (docs.map Document.objsize).sum

/-- Last document of a non-empty batch, given as head plus tail. -/
def lastDoc (d : Document) : List Document → Document
  | [] => d
  | e :: tl => lastDoc e tl

/-- Modelled from the spec (section 4.4 rules 5 and 6, anchored per section 8's
"begins at `prev.lastFetched`"): walk the batch threading the last seen
timestamp, requiring each document's `ts` to be strictly greater than the
previous one (`OplogOutOfOrder` otherwise) and the terms along the batch to
be non-decreasing (`OplogOutOfOrder` otherwise).  `prevTerm` is `none` when
no in-batch predecessor exists (the frontier carries no term here: the
declared signature passes only a `Timestamp`). -/
def checkOrder (lastTS : Timestamp) (prevTerm : Option Nat) :
    List Document → Except ErrorCode Unit
  | [] => Except.ok ()
  | d :: rest =>
    if d.ts ≤ lastTS then Except.error ErrorCode.OplogOutOfOrder
    else
      match prevTerm with
      | some t =>
        if d.t < t then Except.error ErrorCode.OplogOutOfOrder
        else checkOrder d.ts (some d.t) rest
      | none => checkOrder d.ts (some d.t) rest

/-- Modelled from the spec (section 4.4 success case): the statistics for a
successful non-empty batch with head `d` and tail `rest`.  `network*` count
everything observed on the wire; `toApply*` exclude the leading continuity
document exactly when this is the first batch and the starting point is
`kSkipFirstDoc`. -/
def makeInfo (d : Document) (rest : List Document) (first : Bool)
    (startingPoint : StartingPoint) : DocumentsInfo :=
  { networkDocumentCount := (d :: rest).length
    networkDocumentBytes := sumBytes (d :: rest)
    toApplyDocumentCount :=
      if first = true ∧ startingPoint = StartingPoint.kSkipFirstDoc then
        rest.length
      else (d :: rest).length
    toApplyDocumentBytes :=
      if first = true ∧ startingPoint = StartingPoint.kSkipFirstDoc then
        sumBytes rest
      else sumBytes (d :: rest)
    lastDocument := (lastDoc d rest).opTime }

/-- Modelled from the spec: the body of
`NewOplogFetcher::validateDocuments(documents, first, lastTS, startingPoint)`
(declared at oplog_fetcher.h:384-388) is not under src/.  Rules follow spec
section 4.4 in order: (1) an empty batch is allowed and returns zero counts
with `lastDocument = lastKnownTs` packaged as an OpTime; (2) on the first
batch the first document's `ts` must equal `lastTS`, else
`OplogStartMissing`; (5)/(6) strict timestamp order and non-decreasing terms
along the batch, else `OplogOutOfOrder`.  Rules 3 (fresher sync source) and
4 (required RBID) read fetcher state that the declared static signature does
not receive; they are modelled separately in `onSuccessfulBatchCheck`. -/
def validateDocuments (documents : List Document) (first : Bool)
    (lastTS : Timestamp) (startingPoint : StartingPoint) :
    Except ErrorCode DocumentsInfo :=
  match documents with
  | [] =>
    Except.ok
      { networkDocumentCount := 0
        networkDocumentBytes := 0
        toApplyDocumentCount := 0
        toApplyDocumentBytes := 0
        lastDocument := OpTime.fromTimestamp lastTS }
  | d :: rest =>
    if first then
      if d.ts = lastTS then
        match checkOrder d.ts (some d.t) rest with
        | Except.error e => Except.error e
        | Except.ok _ => Except.ok (makeInfo d rest first startingPoint)
      else Except.error ErrorCode.OplogStartMissing
    else
      match checkOrder lastTS none (d :: rest) with
      | Except.error e => Except.error e
      | Except.ok _ => Except.ok (makeInfo d rest first startingPoint)

/-- Adjacent-pair ordering of a batch as the spec's claims phrase it: for
every adjacent pair `(prev, next)`, `next.ts > prev.ts` and
`next.t ≥ prev.t`. -/
def pairsOrdered : List Document → Bool
  | a :: b :: rest =>
    decide (a.ts < b.ts) && decide (a.t ≤ b.t) && pairsOrdered (b :: rest)
  | _ => true

/-- Whether a non-empty batch's first document misses the `lastTS` frontier. -/
def firstTsMismatch (docs : List Document) (lastTS : Timestamp) : Bool :=
  match docs with
  | [] => false
  | d :: _ => decide (d.ts ≠ lastTS)

/-- Serialized size of the leading document of a batch (0 when empty). -/
def headBytes (docs : List Document) : Nat :=
  match docs with
  | [] => 0
  | d :: _ => d.objsize

/-- Modelled from the spec (section 4.4 rule 3) and oplog_fetcher.h:470-475:
the body of `NewOplogFetcher::_onSuccessfulBatch` is not under src/.  It runs
`validateDocuments` and then, on the first batch when
`_requireFresherSyncSource` (oplog_fetcher.h:540-544) is set, requires at
least one document beyond the continuity document, failing with
`InvalidSyncSource` otherwise.  (A fresher-source violation needs a
one-document batch, which always passes the ordering checks, so checking it
after `validateDocuments` is observably the spec's rule order.)  The
required-RBID rule reads reply metadata that no claim touches and is not
modelled. -/
def onSuccessfulBatchCheck (documents : List Document) (first : Bool)
    (lastTS : Timestamp) (startingPoint : StartingPoint)
    (requireFresherSyncSource : Bool) : Except ErrorCode DocumentsInfo :=
  match validateDocuments documents first lastTS startingPoint with
  | Except.error e => Except.error e
  | Except.ok info =>
    if first = true ∧ requireFresherSyncSource = true ∧ documents.length = 1
    then Except.error ErrorCode.InvalidSyncSource
    else Except.ok info

/-- `NewOplogFetcher::OplogFetcherRestartDecisionDefault`
(oplog_fetcher.h:341-358): the member fields `_numRestarts` (restarts since
the last successful oplog query response) and `_maxRestarts`. -/
structure OplogFetcherRestartDecisionDefault where
  numRestarts : Nat
  maxRestarts : Nat
deriving DecidableEq

/-- Modelled from the spec (section 4.5): the body of
`OplogFetcherRestartDecisionDefault::shouldContinue` (oplog_fetcher.h:345) is
not under src/.  The consecutive-failure counter increments on every call,
and the call returns true while the counter is at most `maxRestarts`. -/
def shouldContinue (p : OplogFetcherRestartDecisionDefault) :
    Bool × OplogFetcherRestartDecisionDefault :=
  let p2 : OplogFetcherRestartDecisionDefault :=
    { p with numRestarts := p.numRestarts + 1 }
  (decide (p2.numRestarts ≤ p2.maxRestarts), p2)

/-- Modelled from the spec (section 4.5): the body of
`OplogFetcherRestartDecisionDefault::fetchSuccessful` (oplog_fetcher.h:347)
is not under src/.  A successful batch resets the consecutive-failure
counter to zero. -/
def fetchSuccessful (p : OplogFetcherRestartDecisionDefault) :
    OplogFetcherRestartDecisionDefault :=
  { p with numRestarts := 0 }

/-- Terminal statuses the fetcher can report through the shutdown callback
(spec sections 4.1 and 7). -/
inductive StatusCode where
  | ok
  | callbackCanceled
  | fetchError (e : ErrorCode)
deriving DecidableEq

/-- The environment events driving one run of the cursor driver loop (spec
section 4.3): a batch arriving from the sync source, a recoverable
transport/server error, the remote closing the stream cleanly, and an
external `shutdown()` request. -/
inductive Event where
  | batch (docs : List Document)
  | networkError
  | endOfStream
  | shutdownRequest
deriving DecidableEq

/-- The construction-time configuration the run model needs
(oplog_fetcher.h:363-374): `_requireFresherSyncSource` and
`_startingPoint`. -/
structure FetcherConfig where
  requireFresherSyncSource : Bool
  startingPoint : StartingPoint
deriving DecidableEq

/-- The mutable fetcher state guarded by `_mutex` (oplog_fetcher.h:501-556):
`_lastFetched`, `_firstBatch`, the restart-decision state, whether the run
has reached its terminal status, and how many times the shutdown callback
has been invoked (spec: at most once). -/
structure FetcherState where
  lastFetched : OpTime
  firstBatch : Bool
  restartDecision : OplogFetcherRestartDecisionDefault
  finished : Option StatusCode
  shutdownCallbackCount : Nat
deriving DecidableEq

/-- Modelled from the spec (section 4.1) and oplog_fetcher.h:477-481: the
body of `NewOplogFetcher::_finishCallback` is not under src/.  It delivers
the terminal status to `_onShutdownCallbackFn` exactly once; a later call
with a run already finished delivers nothing. -/
def finishCallback (s : FetcherState) (st : StatusCode) : FetcherState :=
  match s.finished with
  | some _ => s
  | none =>
    { s with
      finished := some st
      shutdownCallbackCount := s.shutdownCallbackCount + 1 }

/-- The batch-validation outcome the driver computes for a batch in state
`s`: the declared signature of `validateDocuments` passes the frontier as
the bare `Timestamp` `_lastFetched.ts` (oplog_fetcher.h:384-388). -/
def batchValidation (cfg : FetcherConfig) (s : FetcherState)
    (docs : List Document) : Except ErrorCode DocumentsInfo :=
  onSuccessfulBatchCheck docs s.firstBatch s.lastFetched.ts
    cfg.startingPoint cfg.requireFresherSyncSource

/-- Modelled from the spec (section 4.3): one iteration of the cursor driver
loop, whose body (`NewOplogFetcher::_runQuery`, oplog_fetcher.h:441) is not
under src/.  A validated batch advances `_lastFetched` to its last entry's
OpTime (when non-empty), clears `_firstBatch` and resets the restart
counter; a validation failure is fatal and finishes with that error; a
recoverable error consults `shouldContinue` and finishes when the budget is
exhausted; end-of-stream finishes with OK; `shutdown()` finishes with
`callbackCanceled`.  After the terminal status is delivered the run ignores
further events. -/
def step (cfg : FetcherConfig) (s : FetcherState) (e : Event) : FetcherState :=
  match s.finished with
  | some _ => s
  | none =>
    match e with
    | Event.batch docs =>
      match batchValidation cfg s docs with
      | Except.ok info =>
        { s with
          lastFetched := if docs.isEmpty then s.lastFetched else info.lastDocument
          firstBatch := false
          restartDecision := fetchSuccessful s.restartDecision }
      | Except.error err => finishCallback s (StatusCode.fetchError err)
    | Event.networkError =>
      let r := shouldContinue s.restartDecision
      if r.1 then { s with restartDecision := r.2 }
      else
        finishCallback { s with restartDecision := r.2 }
          (StatusCode.fetchError ErrorCode.NetworkError)
    | Event.endOfStream => finishCallback s StatusCode.ok
    | Event.shutdownRequest => finishCallback s StatusCode.callbackCanceled

/-- A whole run from a given state: fold the driver step over the event
trace. -/
def runSteps (cfg : FetcherConfig) (s : FetcherState)
    (events : List Event) : FetcherState :=
  events.foldl (step cfg) s

/-- The state right after construction (oplog_fetcher.h:363-374): the
caller-supplied initial `lastFetched`, `_firstBatch = true`
(oplog_fetcher.h:514), a fresh restart counter, no terminal status and no
shutdown-callback delivery yet. -/
def initialState (lastFetched : OpTime) (maxRestarts : Nat) : FetcherState :=
  { lastFetched := lastFetched
    firstBatch := true
    restartDecision := { numRestarts := 0, maxRestarts := maxRestarts }
    finished := none
    shutdownCallbackCount := 0 }

/-- Modelled from the spec (section 4.1): a complete externally observable
run.  When `start()` fails to schedule (`startOk = false`) the background
task never runs and no event is processed; otherwise the driver folds over
the event trace from the initial state. -/
def runFetcher (cfg : FetcherConfig) (lastFetched : OpTime)
    (maxRestarts : Nat) (startOk : Bool) (events : List Event) :
    FetcherState :=
  if startOk then runSteps cfg (initialState lastFetched maxRestarts) events
  else initialState lastFetched maxRestarts

/-! ## Helper lemmas about the ordering walk -/

theorem checkOrder_ok_pairs (docs : List Document) :
    ∀ prev : Document, checkOrder prev.ts (some prev.t) docs = Except.ok () →
      pairsOrdered (prev :: docs) = true := by
  induction docs with
  | nil => intro prev _; rfl
  | cons b tl ih =>
    intro prev h
    simp only [checkOrder] at h
    by_cases h1 : b.ts ≤ prev.ts
    · simp [h1] at h
    · simp only [h1, if_false] at h
      by_cases h2 : b.t < prev.t
      · simp [h2] at h
      · simp only [h2, if_false] at h
        have hrec := ih b h
        simp only [pairsOrdered, hrec, Bool.and_true, Bool.and_eq_true,
          decide_eq_true_eq]
        omega

theorem pairs_checkOrder_ok (docs : List Document) :
    ∀ prev : Document, pairsOrdered (prev :: docs) = true →
      checkOrder prev.ts (some prev.t) docs = Except.ok () := by
  induction docs with
  | nil => intro prev _; rfl
  | cons b tl ih =>
    intro prev h
    simp only [pairsOrdered, Bool.and_eq_true, decide_eq_true_eq] at h
    obtain ⟨⟨hts, ht⟩, hrest⟩ := h
    have h1 : ¬ b.ts ≤ prev.ts := by omega
    have h2 : ¬ b.t < prev.t := by omega
    simp only [checkOrder, h1, if_false, h2]
    exact ih b hrest

theorem pairs_false_checkOrder_err (docs : List Document) :
    ∀ prev : Document, pairsOrdered (prev :: docs) = false →
      checkOrder prev.ts (some prev.t) docs =
        Except.error ErrorCode.OplogOutOfOrder := by
  induction docs with
  | nil => intro prev h; simp [pairsOrdered] at h
  | cons b tl ih =>
    intro prev h
    simp only [pairsOrdered, Bool.and_eq_false_iff] at h
    simp only [checkOrder]
    by_cases h1 : b.ts ≤ prev.ts
    · simp [h1]
    · simp only [h1, if_false]
      by_cases h2 : b.t < prev.t
      · simp [h2]
      · simp only [h2, if_false]
        apply ih b
        rcases h with h | h
        · rcases h with h | h
          · rw [decide_eq_false_iff_not] at h; omega
          · rw [decide_eq_false_iff_not] at h; omega
        · exact h

theorem checkOrder_ok_last (tl : List Document) :
    ∀ (last0 : Nat) (pt : Option Nat) (b : Document),
      checkOrder last0 pt (b :: tl) = Except.ok () →
      last0 < (lastDoc b tl).ts := by
  induction tl with
  | nil =>
    intro last0 pt b h
    simp only [checkOrder] at h
    by_cases h1 : b.ts ≤ last0
    · simp [h1] at h
    · simp only [lastDoc]; omega
  | cons c tl2 ih =>
    intro last0 pt b h
    simp only [checkOrder] at h
    by_cases h1 : b.ts ≤ last0
    · simp [h1] at h
    · simp only [h1, if_false] at h
      have hb : b.ts < (lastDoc c tl2).ts := by
        cases pt with
        | none => exact ih b.ts (some b.t) c h
        | some t =>
          by_cases h2 : b.t < t
          · simp [h2] at h
          · simp only [h2, if_false] at h
            exact ih b.ts (some b.t) c h
      simp only [lastDoc]
      omega

theorem lastDoc_getLast (d : Document) (rest : List Document) :
    (d :: rest).getLast? = some (lastDoc d rest) := by
  induction rest generalizing d with
  | nil => rfl
  | cons e tl ih =>
    rw [List.getLast?_cons_cons]
    exact ih e

theorem sumBytes_cons (d : Document) (rest : List Document) :
    sumBytes (d :: rest) = d.objsize + sumBytes rest := by
  simp [sumBytes]

theorem checkOrder_none_cons_ok (d : Document) (rest : List Document)
    (lastTS : Nat) (h : checkOrder lastTS none (d :: rest) = Except.ok ()) :
    checkOrder d.ts (some d.t) rest = Except.ok () := by
  simp only [checkOrder] at h
  by_cases h1 : d.ts ≤ lastTS
  · simp [h1] at h
  · simpa [h1] using h

theorem checkOrder_none_cons_err (d : Document) (rest : List Document)
    (lastTS : Nat) (hp : pairsOrdered (d :: rest) = false) :
    checkOrder lastTS none (d :: rest) =
      Except.error ErrorCode.OplogOutOfOrder := by
  simp only [checkOrder]
  by_cases h1 : d.ts ≤ lastTS
  · simp [h1]
  · simp [h1, pairs_false_checkOrder_err rest d hp]

theorem validateDocuments_cons_ok (d : Document) (rest : List Document)
    (first : Bool) (lastTS : Nat) (sp : StartingPoint) (info : DocumentsInfo)
    (h : validateDocuments (d :: rest) first lastTS sp = Except.ok info) :
    info = makeInfo d rest first sp := by
  simp only [validateDocuments] at h
  split at h
  · split at h
    · split at h
      · exact Except.noConfusion h
      · injection h with h2
        exact h2.symm
    · exact Except.noConfusion h
  · split at h
    · exact Except.noConfusion h
    · injection h with h2
      exact h2.symm

theorem validateDocuments_ok_checkOrder (d : Document) (rest : List Document)
    (first : Bool) (lastTS : Nat) (sp : StartingPoint) (info : DocumentsInfo)
    (h : validateDocuments (d :: rest) first lastTS sp = Except.ok info) :
    checkOrder d.ts (some d.t) rest = Except.ok () := by
  simp only [validateDocuments] at h
  split at h
  · split at h
    · split at h
      · exact Except.noConfusion h
      · next u heq =>
          cases u
          exact heq
    · exact Except.noConfusion h
  · split at h
    · exact Except.noConfusion h
    · next u heq =>
        cases u
        exact checkOrder_none_cons_ok d rest lastTS heq

/-! ## Claim theorems about the batch validator -/

/-- C1: for every non-empty first batch, if the first document's `ts` does
not equal `lastKnownTs` then validation fails with `OplogStartMissing` and
no `DocumentsInfo` is produced. -/
theorem validateDocuments_first_continuity_startMissing
    (d : Document) (rest : List Document) (lastTS : Timestamp)
    (sp : StartingPoint) (h : d.ts ≠ lastTS) :
    validateDocuments (d :: rest) true lastTS sp
      = Except.error ErrorCode.OplogStartMissing := by
  simp [validateDocuments, h]

/-- Witness for C1 at a concrete input: first document at ts 105 against
frontier 100. -/
theorem validateDocuments_first_continuity_startMissing_witness :
    validateDocuments [{ ts := 105, t := 1, objsize := 3 }] true 100
      StartingPoint.kSkipFirstDoc
      = Except.error ErrorCode.OplogStartMissing :=
  validateDocuments_first_continuity_startMissing
    { ts := 105, t := 1, objsize := 3 } [] 100 StartingPoint.kSkipFirstDoc
    (by decide)

/-- C2 (amended): validation succeeds only if every adjacent pair is ordered
(strictly increasing `ts`, non-decreasing `t`); a batch with a disordered
adjacent pair fails with `OplogOutOfOrder` — unless it is a first batch
whose first document also misses the frontier, in which case the earlier
continuity rule fails first with `OplogStartMissing`. -/
theorem validateDocuments_order_amended (docs : List Document) (first : Bool)
    (lastTS : Timestamp) (sp : StartingPoint) :
    (∀ info, validateDocuments docs first lastTS sp = Except.ok info →
      pairsOrdered docs = true)
  ∧ (pairsOrdered docs = false →
      validateDocuments docs first lastTS sp =
        Except.error
          (if first = true ∧ firstTsMismatch docs lastTS = true
           then ErrorCode.OplogStartMissing
           else ErrorCode.OplogOutOfOrder)) := by
  constructor
  · intro info h
    cases docs with
    | nil => rfl
    | cons d rest =>
      exact checkOrder_ok_pairs rest d
        (validateDocuments_ok_checkOrder d rest first lastTS sp info h)
  · intro hp
    cases docs with
    | nil => simp [pairsOrdered] at hp
    | cons d rest =>
      cases first with
      | false =>
        simp only [Bool.false_eq_true, false_and, if_false]
        simp [validateDocuments, checkOrder_none_cons_err d rest lastTS hp]
      | true =>
        by_cases hts : d.ts = lastTS
        · have hmm : firstTsMismatch (d :: rest) lastTS = false := by
            simp [firstTsMismatch, hts]
          simp only [hmm, Bool.false_eq_true, and_false, if_false]
          subst hts
          simp [validateDocuments, pairs_false_checkOrder_err rest d hp]
        · have hmm : firstTsMismatch (d :: rest) lastTS = true := by
            simp [firstTsMismatch, hts]
          simp only [hmm, and_self, if_true]
          simp [validateDocuments, hts]

/-- Witness for C2 (amended) at a concrete input: a non-first batch with a
decreasing timestamp pair fails with `OplogOutOfOrder`. -/
theorem validateDocuments_order_amended_witness :
    validateDocuments [{ ts := 120, t := 1, objsize := 2 },
                       { ts := 115, t := 1, objsize := 2 }] false 100
      StartingPoint.kSkipFirstDoc
      = Except.error ErrorCode.OplogOutOfOrder := by
  have h := (validateDocuments_order_amended
    [{ ts := 120, t := 1, objsize := 2 }, { ts := 115, t := 1, objsize := 2 }]
    false 100 StartingPoint.kSkipFirstDoc).2 (by decide)
  simpa using h

/-- Counterexample to C2 as stated: a first batch that is both out of order
and discontinuous fails with `OplogStartMissing`, not `OplogOutOfOrder`. -/
theorem validateDocuments_order_counterexample :
    pairsOrdered [{ ts := 105, t := 1, objsize := 3 },
                  { ts := 100, t := 1, objsize := 3 }] = false
  ∧ validateDocuments [{ ts := 105, t := 1, objsize := 3 },
                       { ts := 100, t := 1, objsize := 3 }] true 100
      StartingPoint.kSkipFirstDoc = Except.error ErrorCode.OplogStartMissing
  ∧ validateDocuments [{ ts := 105, t := 1, objsize := 3 },
                       { ts := 100, t := 1, objsize := 3 }] true 100
      StartingPoint.kSkipFirstDoc ≠ Except.error ErrorCode.OplogOutOfOrder := by
  refine ⟨by decide, by decide, by decide⟩

/-- C3: a first batch whose first document sits exactly at the frontier `T`
and whose elements are in order validates successfully, and the returned
`lastDocument` is the OpTime of the batch's last document. -/
theorem validateDocuments_roundtrip_lastDocument
    (d : Document) (rest : List Document) (T : Timestamp)
    (h1 : d.ts = T) (h2 : pairsOrdered (d :: rest) = true) :
    ∃ info,
      validateDocuments (d :: rest) true T StartingPoint.kSkipFirstDoc
          = Except.ok info
      ∧ some info.lastDocument
          = ((d :: rest).getLast?).map Document.opTime := by
  subst h1
  refine ⟨makeInfo d rest true StartingPoint.kSkipFirstDoc, ?_, ?_⟩
  · simp [validateDocuments, pairs_checkOrder_ok rest d h2]
  · simp [makeInfo, lastDoc_getLast]

/-- Witness for C3 at a concrete input: ordered first batch starting at the
frontier 100. -/
theorem validateDocuments_roundtrip_lastDocument_witness :
    ∃ info,
      validateDocuments [{ ts := 100, t := 1, objsize := 4 },
                         { ts := 110, t := 2, objsize := 5 }] true 100
          StartingPoint.kSkipFirstDoc = Except.ok info
      ∧ some info.lastDocument
          = (([{ ts := 100, t := 1, objsize := 4 },
               { ts := 110, t := 2, objsize := 5 }] :
                List Document).getLast?).map Document.opTime :=
  validateDocuments_roundtrip_lastDocument
    { ts := 100, t := 1, objsize := 4 } [{ ts := 110, t := 2, objsize := 5 }]
    100 (by decide) (by decide)

/-- C4: the empty batch validates successfully for every `first`, `lastTS`
and starting point, with all four counts zero and `lastDocument` equal to
`lastTS` packaged as an OpTime. -/
theorem validateDocuments_empty_batch (first : Bool) (lastTS : Timestamp)
    (sp : StartingPoint) :
    validateDocuments [] first lastTS sp =
      Except.ok
        { networkDocumentCount := 0
          networkDocumentBytes := 0
          toApplyDocumentCount := 0
          toApplyDocumentBytes := 0
          lastDocument := OpTime.fromTimestamp lastTS } := rfl

/-- C5: on success, the network counts cover the whole batch; the to-apply
counts exclude the leading continuity document exactly on a first batch with
`kSkipFirstDoc`, and otherwise equal the network counts. -/
theorem validateDocuments_counts (docs : List Document) (first : Bool)
    (lastTS : Timestamp) (sp : StartingPoint) (info : DocumentsInfo)
    (h : validateDocuments docs first lastTS sp = Except.ok info) :
    info.networkDocumentCount = docs.length
  ∧ info.networkDocumentBytes = sumBytes docs
  ∧ (first = true ∧ sp = StartingPoint.kSkipFirstDoc →
      info.toApplyDocumentCount = docs.length - 1
    ∧ info.toApplyDocumentBytes = sumBytes docs - headBytes docs)
  ∧ (¬(first = true ∧ sp = StartingPoint.kSkipFirstDoc) →
      info.toApplyDocumentCount = info.networkDocumentCount
    ∧ info.toApplyDocumentBytes = info.networkDocumentBytes) := by
  cases docs with
  | nil =>
    injection h with h2
    subst h2
    refine ⟨rfl, rfl, fun _ => ⟨rfl, rfl⟩, fun _ => ⟨rfl, rfl⟩⟩
  | cons d rest =>
    have hinfo := validateDocuments_cons_ok d rest first lastTS sp info h
    subst hinfo
    by_cases hc : first = true ∧ sp = StartingPoint.kSkipFirstDoc
    · refine ⟨rfl, rfl, fun _ => ⟨?_, ?_⟩, fun hn => absurd hc hn⟩
      · simp [makeInfo, hc]
      · simp [makeInfo, hc, headBytes, sumBytes_cons]
    · refine ⟨rfl, rfl, fun hyes => absurd hyes hc, fun _ => ⟨?_, ?_⟩⟩
      · simp [makeInfo, hc]
      · simp [makeInfo, hc]

/-- Witness for C5 at a concrete input: two-document first batch with
`kSkipFirstDoc`; the to-apply statistics drop the continuity document. -/
theorem validateDocuments_counts_witness :
    ({ networkDocumentCount := 2, networkDocumentBytes := 10,
       toApplyDocumentCount := 1, toApplyDocumentBytes := 6,
       lastDocument := { ts := 110, t := 1 } } :
        DocumentsInfo).networkDocumentCount
      = ([{ ts := 100, t := 1, objsize := 4 },
          { ts := 110, t := 1, objsize := 6 }] : List Document).length :=
  (validateDocuments_counts
    [{ ts := 100, t := 1, objsize := 4 }, { ts := 110, t := 1, objsize := 6 }]
    true 100 StartingPoint.kSkipFirstDoc
    { networkDocumentCount := 2, networkDocumentBytes := 10,
      toApplyDocumentCount := 1, toApplyDocumentBytes := 6,
      lastDocument := { ts := 110, t := 1 } } rfl).1

/-- C6: a first batch that passes the continuity check but carries nothing
beyond the continuity document fails with `InvalidSyncSource` when a fresher
sync source is required. -/
theorem fresherSyncSource_invalidSyncSource (d : Document)
    (lastTS : Timestamp) (sp : StartingPoint) (h : d.ts = lastTS) :
    onSuccessfulBatchCheck [d] true lastTS sp true
      = Except.error ErrorCode.InvalidSyncSource := by
  subst h
  simp [onSuccessfulBatchCheck, validateDocuments, checkOrder]

/-- Witness for C6 at a concrete input: one-document first batch at the
frontier with the fresher-source requirement on. -/
theorem fresherSyncSource_invalidSyncSource_witness :
    onSuccessfulBatchCheck [{ ts := 100, t := 2, objsize := 5 }] true 100
      StartingPoint.kSkipFirstDoc true
      = Except.error ErrorCode.InvalidSyncSource :=
  fresherSyncSource_invalidSyncSource { ts := 100, t := 2, objsize := 5 }
    100 StartingPoint.kSkipFirstDoc (by decide)

/-! ## Helper lemmas about the run model -/

theorem onSuccessfulBatchCheck_ok (docs : List Document) (first : Bool)
    (lastTS : Nat) (sp : StartingPoint) (rf : Bool) (info : DocumentsInfo)
    (h : onSuccessfulBatchCheck docs first lastTS sp rf = Except.ok info) :
    validateDocuments docs first lastTS sp = Except.ok info := by
  unfold onSuccessfulBatchCheck at h
  split at h
  · exact Except.noConfusion h
  · next info0 heq =>
      split at h
      · exact Except.noConfusion h
      · injection h with h2
        rw [h2] at heq
        exact heq

theorem validateDocuments_first_ok_ts (d : Document) (rest : List Document)
    (lastTS : Nat) (sp : StartingPoint) (info : DocumentsInfo)
    (h : validateDocuments (d :: rest) true lastTS sp = Except.ok info) :
    d.ts = lastTS := by
  by_cases hts : d.ts = lastTS
  · exact hts
  · simp [validateDocuments, hts] at h

theorem validateDocuments_ok_frontier_le (d : Document) (rest : List Document)
    (first : Bool) (lastTS : Nat) (sp : StartingPoint) (info : DocumentsInfo)
    (h : validateDocuments (d :: rest) first lastTS sp = Except.ok info) :
    lastTS ≤ info.lastDocument.ts := by
  have hmk := validateDocuments_cons_ok d rest first lastTS sp info h
  subst hmk
  cases first with
  | true =>
    have hts := validateDocuments_first_ok_ts d rest lastTS sp _ h
    have hco := validateDocuments_ok_checkOrder d rest true lastTS sp _ h
    cases rest with
    | nil => simp [makeInfo, lastDoc, Document.opTime, hts]
    | cons b tl =>
      have hlt := checkOrder_ok_last tl d.ts (some d.t) b hco
      simp only [makeInfo, lastDoc, Document.opTime]
      omega
  | false =>
    have hco : checkOrder lastTS none (d :: rest) = Except.ok () := by
      simp only [validateDocuments, Bool.false_eq_true, if_false] at h
      cases hv : checkOrder lastTS none (d :: rest) with
      | ok u => cases u; rfl
      | error e => simp [hv] at h
    have hlt := checkOrder_ok_last rest lastTS none d hco
    simp only [makeInfo, Document.opTime]
    omega

theorem batchValidation_ok_frontier_le (cfg : FetcherConfig)
    (s : FetcherState) (d : Document) (rest : List Document)
    (info : DocumentsInfo)
    (h : batchValidation cfg s (d :: rest) = Except.ok info) :
    s.lastFetched.ts ≤ info.lastDocument.ts :=
  validateDocuments_ok_frontier_le d rest s.firstBatch s.lastFetched.ts
    cfg.startingPoint info
    (onSuccessfulBatchCheck_ok (d :: rest) s.firstBatch s.lastFetched.ts
      cfg.startingPoint cfg.requireFresherSyncSource info h)

theorem finishCallback_lastFetched (s : FetcherState) (st : StatusCode) :
    (finishCallback s st).lastFetched = s.lastFetched := by
  cases hf : s.finished <;> simp [finishCallback, hf]

theorem step_lastFetched_ts_mono (cfg : FetcherConfig) (s : FetcherState)
    (e : Event) : s.lastFetched.ts ≤ (step cfg s e).lastFetched.ts := by
  cases hf : s.finished with
  | some st => simp [step, hf]
  | none =>
    cases e with
    | batch docs =>
      cases hv : batchValidation cfg s docs with
      | error err => simp [step, hf, hv, finishCallback_lastFetched]
      | ok info =>
        cases docs with
        | nil => simp [step, hf, hv]
        | cons d rest =>
          have hle := batchValidation_ok_frontier_le cfg s d rest info hv
          simp [step, hf, hv]
          exact hle
    | networkError =>
      by_cases hr : (shouldContinue s.restartDecision).1 = true
      · simp [step, hf, hr]
      · simp [step, hf, hr, finishCallback_lastFetched]
    | endOfStream => simp [step, hf, finishCallback_lastFetched]
    | shutdownRequest => simp [step, hf, finishCallback_lastFetched]

theorem runSteps_lastFetched_ts_mono (cfg : FetcherConfig)
    (events : List Event) :
    ∀ s : FetcherState,
      s.lastFetched.ts ≤ (runSteps cfg s events).lastFetched.ts := by
  induction events with
  | nil => intro s; simp [runSteps]
  | cons e es ih =>
    intro s
    have h1 := step_lastFetched_ts_mono cfg s e
    have h2 := ih (step cfg s e)
    simp only [runSteps, List.foldl_cons] at h2 ⊢
    omega

/-! ## Claim theorems about the run model -/

/-- C7 (amended): along every run the timestamp component of `lastFetched`
is monotonically non-decreasing, and `lastFetched` is mutated only by a
successfully validated non-empty batch, after which it equals the OpTime of
that batch's last entry.  The full OpTime can decrease in exactly one
situation — a one-document first batch whose continuity document carries a
smaller term at the unchanged frontier timestamp (see the counterexample):
validation receives only the frontier's timestamp and cannot rule that
out. -/
theorem lastFetched_amended (cfg : FetcherConfig) (s : FetcherState)
    (events : List Event) :
    s.lastFetched.ts ≤ (runSteps cfg s events).lastFetched.ts
  ∧ (∀ e : Event, (step cfg s e).lastFetched ≠ s.lastFetched →
      ∃ docs info, e = Event.batch docs
        ∧ batchValidation cfg s docs = Except.ok info
        ∧ (step cfg s e).lastFetched = info.lastDocument
        ∧ (docs.getLast?).map Document.opTime = some info.lastDocument) := by
  constructor
  · exact runSteps_lastFetched_ts_mono cfg events s
  · intro e hne
    cases hf : s.finished with
    | some st =>
        exfalso
        apply hne
        simp [step, hf]
    | none =>
      cases e with
      | networkError =>
        exfalso
        apply hne
        by_cases hr : (shouldContinue s.restartDecision).1 = true
        · simp [step, hf, hr]
        · simp [step, hf, hr, finishCallback_lastFetched]
      | endOfStream =>
        exact absurd (by simp [step, hf, finishCallback_lastFetched]) hne
      | shutdownRequest =>
        exact absurd (by simp [step, hf, finishCallback_lastFetched]) hne
      | batch docs =>
        cases hv : batchValidation cfg s docs with
        | error err =>
          exact absurd (by simp [step, hf, hv, finishCallback_lastFetched]) hne
        | ok info =>
          cases docs with
          | nil => exact absurd (by simp [step, hf, hv]) hne
          | cons d rest =>
            refine ⟨d :: rest, info, rfl, hv, by simp [step, hf, hv], ?_⟩
            have hval := onSuccessfulBatchCheck_ok (d :: rest) s.firstBatch
              s.lastFetched.ts cfg.startingPoint cfg.requireFresherSyncSource
              info hv
            have hmk := validateDocuments_cons_ok d rest s.firstBatch
              s.lastFetched.ts cfg.startingPoint info hval
            subst hmk
            simp [makeInfo, lastDoc_getLast]

/-- Witness for C7 (amended): a concrete non-first batch moves `lastFetched`
to the batch's last entry. -/
theorem lastFetched_amended_witness :
    ∃ docs info,
      Event.batch [{ ts := 110, t := 1, objsize := 6 }]
        = Event.batch docs
      ∧ batchValidation
          { requireFresherSyncSource := false
            startingPoint := StartingPoint.kSkipFirstDoc }
          { lastFetched := { ts := 100, t := 1 }
            firstBatch := false
            restartDecision := { numRestarts := 0, maxRestarts := 1 }
            finished := none
            shutdownCallbackCount := 0 } docs = Except.ok info
      ∧ (step
          { requireFresherSyncSource := false
            startingPoint := StartingPoint.kSkipFirstDoc }
          { lastFetched := { ts := 100, t := 1 }
            firstBatch := false
            restartDecision := { numRestarts := 0, maxRestarts := 1 }
            finished := none
            shutdownCallbackCount := 0 }
          (Event.batch [{ ts := 110, t := 1, objsize := 6 }])).lastFetched
          = info.lastDocument
      ∧ (docs.getLast?).map Document.opTime = some info.lastDocument :=
  (lastFetched_amended
    { requireFresherSyncSource := false
      startingPoint := StartingPoint.kSkipFirstDoc }
    { lastFetched := { ts := 100, t := 1 }
      firstBatch := false
      restartDecision := { numRestarts := 0, maxRestarts := 1 }
      finished := none
      shutdownCallbackCount := 0 } []).2
    (Event.batch [{ ts := 110, t := 1, objsize := 6 }]) (by decide)

/-- Counterexample to C7 as stated: from frontier OpTime (ts 100, term 5), a
successfully validated one-document first batch at (ts 100, term 0) moves
`lastFetched` to (100, 0), which is strictly below (100, 5) in the
lexicographic OpTime order — `lastFetched` is not monotonically
non-decreasing as a full OpTime.  The run is healthy: no terminal status was
delivered. -/
theorem lastFetched_monotone_counterexample :
    ¬ OpTime.le
        (initialState { ts := 100, t := 5 } 1).lastFetched
        (runSteps
          { requireFresherSyncSource := false
            startingPoint := StartingPoint.kSkipFirstDoc }
          (initialState { ts := 100, t := 5 } 1)
          [Event.batch [{ ts := 100, t := 0, objsize := 10 }]]).lastFetched
  ∧ (runSteps
      { requireFresherSyncSource := false
        startingPoint := StartingPoint.kSkipFirstDoc }
      (initialState { ts := 100, t := 5 } 1)
      [Event.batch [{ ts := 100, t := 0, objsize := 10 }]]).finished
      = none := by
  refine ⟨by decide, by decide⟩

theorem finishCallback_count_inv (s : FetcherState) (st : StatusCode)
    (hinv : s.shutdownCallbackCount = if s.finished.isSome then 1 else 0) :
    (finishCallback s st).shutdownCallbackCount
      = if (finishCallback s st).finished.isSome then 1 else 0 := by
  cases hf : s.finished with
  | some st0 => simpa [finishCallback, hf] using hinv
  | none =>
    rw [hf] at hinv
    simp only [Option.isSome_none, Bool.false_eq_true, if_false] at hinv
    simp [finishCallback, hf, hinv]

theorem step_count_inv (cfg : FetcherConfig) (s : FetcherState) (e : Event)
    (hinv : s.shutdownCallbackCount = if s.finished.isSome then 1 else 0) :
    (step cfg s e).shutdownCallbackCount
      = if (step cfg s e).finished.isSome then 1 else 0 := by
  cases hf : s.finished with
  | some st =>
    have hs : step cfg s e = s := by simp [step, hf]
    rw [hs]
    exact hinv
  | none =>
    rw [hf] at hinv
    simp only [Option.isSome_none, Bool.false_eq_true, if_false] at hinv
    cases e with
    | batch docs =>
      cases hv : batchValidation cfg s docs with
      | ok info => simp [step, hf, hv, hinv]
      | error err =>
        have := finishCallback_count_inv s (StatusCode.fetchError err)
          (by simp [hf, hinv])
        simpa [step, hf, hv] using this
    | networkError =>
      by_cases hr : (shouldContinue s.restartDecision).1 = true
      · simp [step, hf, hr, hinv]
      · have := finishCallback_count_inv
          { s with restartDecision := (shouldContinue s.restartDecision).2 }
          (StatusCode.fetchError ErrorCode.NetworkError) (by simp [hf, hinv])
        simpa [step, hf, hr] using this
    | endOfStream =>
      have := finishCallback_count_inv s StatusCode.ok (by simp [hf, hinv])
      simpa [step, hf] using this
    | shutdownRequest =>
      have := finishCallback_count_inv s StatusCode.callbackCanceled
        (by simp [hf, hinv])
      simpa [step, hf] using this

theorem runSteps_count_inv (cfg : FetcherConfig) (events : List Event) :
    ∀ s : FetcherState,
      s.shutdownCallbackCount = (if s.finished.isSome then 1 else 0) →
      (runSteps cfg s events).shutdownCallbackCount
        = if (runSteps cfg s events).finished.isSome then 1 else 0 := by
  induction events with
  | nil => intro s hinv; simpa [runSteps] using hinv
  | cons e es ih =>
    intro s hinv
    have h1 := step_count_inv cfg s e hinv
    have h2 := ih (step cfg s e) h1
    simpa [runSteps, List.foldl_cons] using h2

/-- C8: in every run, the shutdown callback is invoked at most once; it is
invoked zero times when `start()` fails to schedule, and it can have been
invoked only in a run whose `start()` succeeded. -/
theorem shutdownCallback_at_most_once (cfg : FetcherConfig) (lf : OpTime)
    (maxR : Nat) (startOk : Bool) (events : List Event) :
    (runFetcher cfg lf maxR startOk events).shutdownCallbackCount ≤ 1
  ∧ (startOk = false →
      (runFetcher cfg lf maxR startOk events).shutdownCallbackCount = 0)
  ∧ (0 < (runFetcher cfg lf maxR startOk events).shutdownCallbackCount →
      startOk = true) := by
  cases startOk with
  | false =>
    refine ⟨by simp [runFetcher, initialState], fun _ => ?_, fun h => ?_⟩
    · simp [runFetcher, initialState]
    · simp [runFetcher, initialState] at h
  | true =>
    have hinv := runSteps_count_inv cfg events (initialState lf maxR)
      (by simp [initialState])
    have hrun : runFetcher cfg lf maxR true events
        = runSteps cfg (initialState lf maxR) events := rfl
    refine ⟨?_, ?_, ?_⟩
    · rw [hrun, hinv]
      split <;> omega
    · intro hfalse
      exact Bool.noConfusion hfalse
    · intro _
      rfl

/-- Witness for C8 at concrete inputs: a failed `start()` delivers no
shutdown callback even with a pending event trace. -/
theorem shutdownCallback_at_most_once_witness :
    (runFetcher
      { requireFresherSyncSource := true
        startingPoint := StartingPoint.kSkipFirstDoc }
      { ts := 100, t := 1 } 2 false
      [Event.endOfStream, Event.shutdownRequest]).shutdownCallbackCount
      = 0 :=
  (shutdownCallback_at_most_once
    { requireFresherSyncSource := true
      startingPoint := StartingPoint.kSkipFirstDoc }
    { ts := 100, t := 1 } 2 false
    [Event.endOfStream, Event.shutdownRequest]).2.1 rfl

/-- C9: the default restart policy increments its consecutive-failure
counter on every `shouldContinue` call, resets it to zero on every
`fetchSuccessful` call, keeps `maxRestarts` fixed, and `shouldContinue`
returns true exactly while the (incremented) counter is at most
`maxRestarts`. -/
theorem restartDecisionDefault_contract
    (p : OplogFetcherRestartDecisionDefault) :
    (shouldContinue p).2.numRestarts = p.numRestarts + 1
  ∧ (shouldContinue p).2.maxRestarts = p.maxRestarts
  ∧ (fetchSuccessful p).numRestarts = 0
  ∧ (fetchSuccessful p).maxRestarts = p.maxRestarts
  ∧ ((shouldContinue p).1 = true
      ↔ (shouldContinue p).2.numRestarts ≤ p.maxRestarts) := by
  refine ⟨rfl, rfl, rfl, rfl, ?_⟩
  simp [shouldContinue]

/-- C10: validation of a batch depends on the local frontier only through
its timestamp: two fetcher states whose frontiers share a timestamp but
carry different terms validate every batch identically, so a term mismatch
at the frontier is undetectable by validation. -/
theorem validation_frontier_term_blind (cfg : FetcherConfig)
    (s1 s2 : FetcherState) (docs : List Document)
    (hts : s1.lastFetched.ts = s2.lastFetched.ts)
    (hfb : s1.firstBatch = s2.firstBatch) :
    batchValidation cfg s1 docs = batchValidation cfg s2 docs := by
  unfold batchValidation
  rw [hts, hfb]

/-- Witness for C10 at concrete inputs: frontiers (100, 5) and (100, 7)
differ in term yet validate the same batch identically. -/
theorem validation_frontier_term_blind_witness :
    (initialState { ts := 100, t := 5 } 1).lastFetched.t
      ≠ (initialState { ts := 100, t := 7 } 1).lastFetched.t
  ∧ batchValidation
      { requireFresherSyncSource := false
        startingPoint := StartingPoint.kSkipFirstDoc }
      (initialState { ts := 100, t := 5 } 1)
      [{ ts := 100, t := 0, objsize := 4 }]
    = batchValidation
      { requireFresherSyncSource := false
        startingPoint := StartingPoint.kSkipFirstDoc }
      (initialState { ts := 100, t := 7 } 1)
      [{ ts := 100, t := 0, objsize := 4 }] :=
  ⟨by decide,
   validation_frontier_term_blind
     { requireFresherSyncSource := false
       startingPoint := StartingPoint.kSkipFirstDoc }
     (initialState { ts := 100, t := 5 } 1)
     (initialState { ts := 100, t := 7 } 1)
     [{ ts := 100, t := 0, objsize := 4 }] rfl rfl⟩

end OplogFetcherSpec
